import Mathlib

/-!
Shallow embedding of the trends-factory pipeline core
(`src/trends-factory/orchestrator/projectState.ts`,
`src/trends-factory/orchestrator/stateMachine.ts`,
`src/trends-factory/agents/escalationPlanner.ts`, and the trend
synthesizer / video generator agents), together with theorems checking
the natural-language specification against the code.

Conventions of the embedding:
* ISO timestamp strings are modeled as abstract instants (`Nat`); the
  code only ever writes `new Date().toISOString()`, so each call of the
  system clock is a parameter of the embedded function.
* JavaScript `number` fields carrying scores are modeled as `Rat`
  (every literal in the source, e.g. the 6.5 quality threshold, is an
  exact decimal).
* The persisted state file is modeled as `Disk := Option ProjectState`:
  `saveState` only ever writes schema-validated JSON, and `loadState`
  re-validates whatever it parses.
* External AI / filesystem / media calls are modeled as explicit oracle
  functions passed to the embedded agent.
* Fallible TypeScript code (`throw`) becomes `Except String`; functions
  that write the state file additionally return the resulting `Disk`,
  so "no write happened" is a provable statement.
-/

namespace TrendsFactory

/-! ## Schema / type layer (`projectState.ts` lines 10-115) -/

inductive Stage where
  | INIT
  | SCRIPTED
  | VISUALIZED
  | VIDEO_GENERATED
  | ASSEMBLED
deriving DecidableEq, Repr

def Stage.toString : Stage → String
  | .INIT => "INIT"
  | .SCRIPTED => "SCRIPTED"
  | .VISUALIZED => "VISUALIZED"
  | .VIDEO_GENERATED => "VIDEO_GENERATED"
  | .ASSEMBLED => "ASSEMBLED"

structure PatternAnalysis where
  formatPatterns : List String
  behaviorPatterns : List String
  algorithmicIncentives : List String
  lifecycleMapping : List String
deriving DecidableEq, Repr

structure Trend where
  name : String
  promise : String
  behaviorPattern : String
  algorithmicHook : String
  collapsePoint : String
deriving DecidableEq, Repr

structure TrendQuality where
  plausibilityScore : Rat
  cloneabilityScore : Rat
  lifecycleCompletenessScore : Rat
  overallScore : Rat
  passesThreshold : Bool
  rejectionReason : Option String
deriving DecidableEq, Repr

structure ContinuityConstraints where
  lighting : String
  cameraAxis : String
  motionEnergy : String
  colorPalette : String
  environmentType : String
deriving DecidableEq, Repr

structure Scene where
  sceneId : String
  intent : String
  absurdityLevel : Rat
  visualPrompt : Option String := none
  continuityConstraints : Option ContinuityConstraints := none
  conceptImagePath : Option String := none
  videoClipPath : Option String := none
  continuityFramePath : Option String := none
deriving DecidableEq, Repr

structure ProjectState where
  projectId : String
  runId : String
  seed : Int
  createdAt : Nat
  updatedAt : Nat
  stage : Stage
  patternAnalysis : Option PatternAnalysis
  trend : Option Trend
  trendQuality : Option TrendQuality
  scenes : List Scene
  globalContinuity : Option ContinuityConstraints
  error : Option String
  regenerationCount : Int
deriving DecidableEq, Repr

/-! Zod validation, field by field.  `z.string().min(1)` is
non-emptiness; `z.number().min(a).max(b)` is a closed interval;
`.nullable()` / `.optional()` fields validate their payload when
present.  `ProjectStateSchema.scenes` is `z.array(SceneSchema)` with no
length bound. -/

def patternAnalysisValid (p : PatternAnalysis) : Bool :=
  !p.formatPatterns.isEmpty && !p.behaviorPatterns.isEmpty &&
    !p.algorithmicIncentives.isEmpty && !p.lifecycleMapping.isEmpty

def trendValid (t : Trend) : Bool :=
  t.name != "" && t.promise != "" && t.behaviorPattern != "" &&
    t.algorithmicHook != "" && t.collapsePoint != ""

def scoreInRange (x : Rat) : Bool :=
  decide (0 ≤ x) && decide (x ≤ 10)

def trendQualityValid (q : TrendQuality) : Bool :=
  scoreInRange q.plausibilityScore && scoreInRange q.cloneabilityScore &&
    scoreInRange q.lifecycleCompletenessScore && scoreInRange q.overallScore

def continuityConstraintsValid (c : ContinuityConstraints) : Bool :=
  c.lighting != "" && c.cameraAxis != "" && c.motionEnergy != "" &&
    c.colorPalette != "" && c.environmentType != ""

def sceneValid (s : Scene) : Bool :=
  s.sceneId != "" && s.intent != "" &&
    decide (1 ≤ s.absurdityLevel) && decide (s.absurdityLevel ≤ 10) &&
    (match s.continuityConstraints with
     | some c => continuityConstraintsValid c
     | none => true)

def projectStateValid (s : ProjectState) : Bool :=
  s.projectId != "" && s.runId != "" &&
    (match s.patternAnalysis with
     | some p => patternAnalysisValid p
     | none => true) &&
    (match s.trend with
     | some t => trendValid t
     | none => true) &&
    (match s.trendQuality with
     | some q => trendQualityValid q
     | none => true) &&
    s.scenes.all sceneValid &&
    (match s.globalContinuity with
     | some c => continuityConstraintsValid c
     | none => true)

/-! ## Agent delta types (`projectState.ts` lines 121-154) -/

structure TrendSynthesizerDelta where
  patternAnalysis : PatternAnalysis
  trend : Trend
deriving DecidableEq, Repr

structure TrendQualityDelta where
  trendQuality : TrendQuality
deriving DecidableEq, Repr

structure EscalationPlannerDelta where
  scenes : List Scene
  globalContinuity : ContinuityConstraints
deriving DecidableEq, Repr

structure VisualLockerDelta where
  sceneId : String
  visualPrompt : String
  continuityConstraints : ContinuityConstraints
  conceptImagePath : String
deriving DecidableEq, Repr

structure VideoGeneratorDelta where
  sceneId : String
  videoClipPath : String
  continuityFramePath : Option String
deriving DecidableEq, Repr

inductive AgentDelta where
  | TREND_SYNTHESIZED (payload : TrendSynthesizerDelta)
  | TREND_QUALITY_ASSESSED (payload : TrendQualityDelta)
  | ESCALATION_PLANNED (payload : EscalationPlannerDelta)
  | SCENE_VISUALIZED (payload : VisualLockerDelta)
  | SCENE_VIDEO_GENERATED (payload : VideoGeneratorDelta)
deriving DecidableEq, Repr

/-! ## State file management (`projectState.ts` lines 160-242) -/

/-- The persisted state file: `none` models an absent file, `some s`
a file whose JSON parses into `s` (validity is checked separately, as
`loadState` does). -/
abbrev Disk := Option ProjectState

/-- `saveState`: validates, stamps a fresh `updatedAt`, writes.
Returns the write outcome and the resulting file content. -/
def saveState (state : ProjectState) (disk : Disk) (now : Nat) :
    Except String Unit × Disk :=
  if projectStateValid state then
    (Except.ok (), some { state with updatedAt := now })
  else
    (Except.error "Attempted to save invalid state", disk)

/-- `createInitialState`: `projectId` comes from the millisecond clock,
`runId` and (absent a caller-supplied override) `seed` from the crypto
randomness source, both passed in as oracle values. -/
def createInitialState (seed : Option Int) (nowT : Nat)
    (freshRunId : String) (freshSeed : Int) : ProjectState :=
  { projectId := "trends_" ++ Nat.repr nowT
    runId := freshRunId
    seed := seed.getD freshSeed
    createdAt := nowT
    updatedAt := nowT
    stage := .INIT
    patternAnalysis := none
    trend := none
    trendQuality := none
    scenes := []
    globalContinuity := none
    error := none
    regenerationCount := 0 }

/-- `loadState`: if no file exists, synthesize a fresh initial state
(clock read `tCreate`), persist it (clock read `tSave` inside
`saveState`) and return the in-memory initial state; otherwise parse
and schema-validate the existing file. -/
def loadState (disk : Disk) (freshRunId : String) (freshSeed : Int)
    (tCreate tSave : Nat) : Except String ProjectState × Disk :=
  match disk with
  | none =>
      let initialState := createInitialState none tCreate freshRunId freshSeed
      match saveState initialState disk tSave with
      | (Except.ok _, disk1) => (Except.ok initialState, disk1)
      | (Except.error e, disk1) => (Except.error e, disk1)
  | some parsed =>
      if projectStateValid parsed then (Except.ok parsed, disk)
      else (Except.error "Invalid state file", disk)

/-- `resetState`: discard all progress and persist a brand-new initial
state. -/
def resetState (disk : Disk) (seed : Option Int) (freshRunId : String)
    (freshSeed : Int) (tCreate tSave : Nat) :
    Except String ProjectState × Disk :=
  let initialState := createInitialState seed tCreate freshRunId freshSeed
  match saveState initialState disk tSave with
  | (Except.ok _, disk1) => (Except.ok initialState, disk1)
  | (Except.error e, disk1) => (Except.error e, disk1)

/-! ## Stage transition rules (`projectState.ts` lines 248-266) -/

def VALID_TRANSITIONS : Stage → List Stage
  | .INIT => [.SCRIPTED]
  | .SCRIPTED => [.VISUALIZED]
  | .VISUALIZED => [.VIDEO_GENERATED]
  | .VIDEO_GENERATED => [.ASSEMBLED]
  | .ASSEMBLED => []

def canTransition (from_ tgt : Stage) : Bool :=
  (VALID_TRANSITIONS from_).contains tgt

def invalidTransitionMsg (from_ tgt : Stage) : String :=
  "Invalid stage transition: " ++ from_.toString ++ " -> " ++ tgt.toString ++
    ". Valid transitions from " ++ from_.toString ++ ": [" ++
    String.intercalate ", " ((VALID_TRANSITIONS from_).map Stage.toString) ++ "]"

/-! ## Delta application (`projectState.ts` lines 277-365) -/

/-- The error message template of the stage-precondition failures in
`applyDelta`. -/
def illegalDeltaMsg (kind : String) (stage : Stage) : String :=
  "Cannot apply " ++ kind ++ " in stage " ++ stage.toString

/-- The error message template of the scene lookup failures in
`applyDelta`. -/
def sceneNotFoundMsg (sceneId : String) : String :=
  "Scene not found: " ++ sceneId

/-- Tail of `applyDelta`: persist the computed state and return it. -/
def finishApply (newState : ProjectState) (disk : Disk) (now : Nat) :
    Except String ProjectState × Disk :=
  match saveState newState disk now with
  | (Except.ok _, disk1) => (Except.ok newState, disk1)
  | (Except.error e, disk1) => (Except.error e, disk1)

def applyDelta (state : ProjectState) (delta : AgentDelta) (disk : Disk)
    (now : Nat) : Except String ProjectState × Disk :=
  match delta with
  | .TREND_SYNTHESIZED payload =>
      if state.stage ≠ Stage.INIT then
        (Except.error (illegalDeltaMsg "TREND_SYNTHESIZED" state.stage), disk)
      else
        finishApply
          { state with
              patternAnalysis := some payload.patternAnalysis
              trend := some payload.trend } disk now
  | .TREND_QUALITY_ASSESSED payload =>
      if state.stage ≠ Stage.INIT then
        (Except.error (illegalDeltaMsg "TREND_QUALITY_ASSESSED" state.stage), disk)
      else
        finishApply
          { state with
              trendQuality := some payload.trendQuality
              regenerationCount :=
                if payload.trendQuality.passesThreshold then
                  state.regenerationCount
                else
                  state.regenerationCount + 1 } disk now
  | .ESCALATION_PLANNED payload =>
      if state.stage ≠ Stage.INIT then
        (Except.error (illegalDeltaMsg "ESCALATION_PLANNED" state.stage), disk)
      else
        finishApply
          { state with
              scenes := payload.scenes
              globalContinuity := some payload.globalContinuity } disk now
  | .SCENE_VISUALIZED payload =>
      if state.stage ≠ Stage.SCRIPTED then
        (Except.error (illegalDeltaMsg "SCENE_VISUALIZED" state.stage), disk)
      else
        match state.scenes.findIdx? (fun s => s.sceneId == payload.sceneId) with
        | none =>
            (Except.error (sceneNotFoundMsg payload.sceneId), disk)
        | some i =>
            -- the source indexes scenes[i] directly; findIndex returned an
            -- in-bounds index, so the none branch below is unreachable
            match state.scenes.get? i with
            | none => (Except.error (sceneNotFoundMsg payload.sceneId), disk)
            | some old =>
                finishApply
                  { state with
                      scenes := state.scenes.set i
                        { old with
                            visualPrompt := some payload.visualPrompt
                            continuityConstraints := some payload.continuityConstraints
                            conceptImagePath := some payload.conceptImagePath } }
                  disk now
  | .SCENE_VIDEO_GENERATED payload =>
      if state.stage ≠ Stage.VISUALIZED then
        (Except.error (illegalDeltaMsg "SCENE_VIDEO_GENERATED" state.stage), disk)
      else
        match state.scenes.findIdx? (fun s => s.sceneId == payload.sceneId) with
        | none =>
            (Except.error (sceneNotFoundMsg payload.sceneId), disk)
        | some i =>
            -- same as above: the none branch is unreachable
            match state.scenes.get? i with
            | none => (Except.error (sceneNotFoundMsg payload.sceneId), disk)
            | some old =>
                finishApply
                  { state with
                      scenes := state.scenes.set i
                        { old with
                            videoClipPath := some payload.videoClipPath
                            continuityFramePath := payload.continuityFramePath } }
                  disk now

/-- `transitionStage` (`projectState.ts` lines 370-385). -/
def transitionStage (state : ProjectState) (tgt : Stage) (disk : Disk)
    (now : Nat) : Except String ProjectState × Disk :=
  if canTransition state.stage tgt then
    finishApply { state with stage := tgt, error := none } disk now
  else
    (Except.error (invalidTransitionMsg state.stage tgt), disk)

/-- `setError` (`projectState.ts` lines 390-402). -/
def setError (state : ProjectState) (error : String) (disk : Disk)
    (now : Nat) : Except String ProjectState × Disk :=
  finishApply { state with error := some error } disk now

/-! ## Trend synthesizer agent (`agents/trendSynthesizer.ts`) -/

/-- The source's `QUALITY_THRESHOLD = 6.5`, written as the reduced
fraction 13/2 so that comparisons against it evaluate. -/
def QUALITY_THRESHOLD : Rat := ⟨13, 2, by norm_num, by norm_num⟩

theorem QUALITY_THRESHOLD_eq : QUALITY_THRESHOLD = 6.5 := by
  rw [QUALITY_THRESHOLD, Rat.mk'_eq_divInt, Rat.divInt_eq_div]
  norm_num

def MAX_REGENERATION_ATTEMPTS : Nat := 3

/-- JavaScript truthiness of a `string | null | undefined` value:
`null`, `undefined` and the empty string are falsy. -/
def optStrTruthy : Option String → Bool
  | some s => s != ""
  | none => false

/-- `synthesizeTrend`: the Gemini call is the oracle (keyed by the seed
that parametrizes its prompt and temperature); its raw output is
validated against `TrendSynthesisOutputSchema`. -/
def synthesizeTrend (synthOracle : Int → TrendSynthesizerDelta)
    (seed : Int) : Except String TrendSynthesizerDelta :=
  let d := synthOracle seed
  if patternAnalysisValid d.patternAnalysis && trendValid d.trend then
    Except.ok d
  else
    Except.error "Trend Synthesizer output validation failed"

/-- `assessTrendQuality`: the Gemini call is the oracle; its raw output
is validated against `TrendQualitySchema`, then `passesThreshold` is
overridden from `overallScore >= QUALITY_THRESHOLD` and a default
rejection reason is filled in. -/
def assessTrendQuality
    (assessOracle : Trend → PatternAnalysis → TrendQuality)
    (trend : Trend) (patternAnalysis : PatternAnalysis) :
    Except String TrendQualityDelta :=
  let raw := assessOracle trend patternAnalysis
  if trendQualityValid raw then
    let pass := decide (QUALITY_THRESHOLD ≤ raw.overallScore)
    let q1 := { raw with passesThreshold := pass }
    let q2 :=
      if !q1.passesThreshold && !(optStrTruthy q1.rejectionReason) then
        { q1 with rejectionReason := some ("Overall score below threshold") }
      else q1
    Except.ok { trendQuality := q2 }
  else
    Except.error "Quality assessment validation failed"

/-- The error surfaced when the gate exhausts its attempts. -/
def gateExhaustedMsg : String :=
  "Failed to generate quality trend after " ++
    Nat.repr MAX_REGENERATION_ATTEMPTS ++
    " attempts. Consider adjusting quality threshold"

/-- The `while (attempts < MAX_REGENERATION_ATTEMPTS)` loop of
`synthesizeTrendWithQualityGate`, with fuel counting the remaining
iterations.  `attempts` is the value of the counter before the
iteration increments it.  The second component of the result is the
ghost trace of seeds at which the synthesis agent was actually
called. -/
def qualityGateLoop (synthOracle : Int → TrendSynthesizerDelta)
    (assessOracle : Trend → PatternAnalysis → TrendQuality) :
    Nat → Int → Nat →
      Except String (TrendSynthesizerDelta × TrendQualityDelta) × List Int
  | 0, _, _ => (Except.error gateExhaustedMsg, [])
  | fuel + 1, currentSeed, attempts =>
      match synthesizeTrend synthOracle currentSeed with
      | Except.error e => (Except.error e, [currentSeed])
      | Except.ok synthesis =>
          match assessTrendQuality assessOracle synthesis.trend
              synthesis.patternAnalysis with
          | Except.error e => (Except.error e, [currentSeed])
          | Except.ok quality =>
              if quality.trendQuality.passesThreshold then
                (Except.ok (synthesis, quality), [currentSeed])
              else
                let rest := qualityGateLoop synthOracle assessOracle fuel
                  (currentSeed + 1000 + Int.ofNat (attempts + 1)) (attempts + 1)
                (rest.1, currentSeed :: rest.2)

/-- `synthesizeTrendWithQualityGate` (`part_004` lines 524-561). -/
def synthesizeTrendWithQualityGate
    (synthOracle : Int → TrendSynthesizerDelta)
    (assessOracle : Trend → PatternAnalysis → TrendQuality)
    (seed : Int) :
    Except String (TrendSynthesizerDelta × TrendQualityDelta) × List Int :=
  qualityGateLoop synthOracle assessOracle MAX_REGENERATION_ATTEMPTS seed 0

/-! ## Escalation planner agent (`agents/escalationPlanner.ts`) -/

/-- A raw scene as returned by the planning model, before the optional
fields are attached. -/
structure SceneOutline where
  sceneId : String
  intent : String
  absurdityLevel : Rat
deriving DecidableEq, Repr

structure EscalationOutput where
  globalContinuity : ContinuityConstraints
  scenes : List SceneOutline
deriving DecidableEq, Repr

def sceneOutlineValid (s : SceneOutline) : Bool :=
  s.sceneId != "" && s.intent != "" &&
    decide (1 ≤ s.absurdityLevel) && decide (s.absurdityLevel ≤ 10)

/-- `EscalationOutputSchema`: nested validity plus the `.min(4).max(6)`
bound on the scene list. -/
def escalationOutputValid (o : EscalationOutput) : Bool :=
  continuityConstraintsValid o.globalContinuity &&
    o.scenes.all sceneOutlineValid &&
    decide (4 ≤ o.scenes.length) && decide (o.scenes.length ≤ 6)

/-- JavaScript `String(i + 1).padStart(2, "0")` prefixed by
`"scene_"`. -/
def padStart (s : String) (n : Nat) (c : Char) : String :=
  String.mk (List.replicate (n - s.length) c) ++ s

def expectedSceneId (i : Nat) : String :=
  "scene_" ++ padStart (Nat.repr (i + 1)) 2 '0'

/-- The `for` loop rejecting any adjacent non-increase of
`absurdityLevel`. -/
def absurdityEscalates : List SceneOutline → Bool
  | [] => true
  | [_] => true
  | a :: b :: rest =>
      decide (a.absurdityLevel < b.absurdityLevel) &&
        absurdityEscalates (b :: rest)

/-- The `for` loop checking `sceneId` against the zero-padded
sequential naming scheme, starting at position `i`. -/
def sceneIdsSequentialFrom : Nat → List SceneOutline → Bool
  | _, [] => true
  | i, s :: rest =>
      (s.sceneId == expectedSceneId i) && sceneIdsSequentialFrom (i + 1) rest

/-- `rawScenes.map` into `Scene` objects without optional fields. -/
def outlineToScene (s : SceneOutline) : Scene :=
  { sceneId := s.sceneId, intent := s.intent,
    absurdityLevel := s.absurdityLevel }

/-- `planEscalation` (`agents/escalationPlanner.ts` lines 111-204): the
Gemini call is the oracle; its raw output is validated against
`EscalationOutputSchema`, then the escalation and naming loops run, and
the surviving outlines become `Scene`s. -/
def planEscalation (escalationOracle : Trend → Int → EscalationOutput)
    (trend : Trend) (seed : Int) : Except String EscalationPlannerDelta :=
  let rawOutput := escalationOracle trend seed
  if !(escalationOutputValid rawOutput) then
    Except.error "Escalation Planner output validation failed"
  else if !(absurdityEscalates rawOutput.scenes) then
    Except.error "Absurdity must escalate"
  else if !(sceneIdsSequentialFrom 0 rawOutput.scenes) then
    Except.error "Invalid scene ID"
  else
    Except.ok
      { scenes := rawOutput.scenes.map outlineToScene
        globalContinuity := rawOutput.globalContinuity }

/-! ## Video generator agent (`part_004` lines 1-250) -/

structure VideoGeneratorConfig where
  outputDir : String
  seed : Int
  clipDuration : Option Nat := none
  useImageToVideo : Option Bool := none
deriving DecidableEq, Repr

structure VideoGeneratorInput where
  trend : Trend
  scene : Scene
  globalContinuity : ContinuityConstraints
  config : VideoGeneratorConfig
  previousFramePath : Option String := none
deriving DecidableEq, Repr

structure VideoGenerationRequest where
  prompt : String
  imagePath : Option String
  durationSeconds : Nat
  aspectRatio : String
  outputPath : String
deriving DecidableEq, Repr

/-- The external world seen by the video generator: the filesystem
check, the Veo generation call (returning the generated clip path), and
the ffmpeg last-frame extraction (which may fail non-fatally). -/
structure VideoGenEnv where
  fsExists : String → Bool
  generateVideo : VideoGenerationRequest → String
  extractLastFrameOk : String → String → Bool

/-- `path.join(a, b, c)` for plain relative components. -/
def pathJoin3 (a b c : String) : String :=
  a ++ "/" ++ b ++ "/" ++ c

/-- JavaScript `config.clipDuration || 6` (0 is falsy). -/
def numOr (o : Option Nat) (dflt : Nat) : Nat :=
  match o with
  | some n => if n = 0 then dflt else n
  | none => dflt

/-- `buildVideoPrompt` (`part_004` lines 53-109). -/
def buildVideoPrompt (scene : Scene)
    (globalContinuity : ContinuityConstraints)
    (hasPreviousFrame : Bool) : String :=
  let core :=
    match scene.visualPrompt with
    | some vp => if vp != "" then [vp] else [scene.intent]
    | none => [scene.intent]
  let constraints :=
    ["", "=== TECHNICAL REQUIREMENTS (MUST MATCH EXACTLY) ===",
     "LIGHTING: " ++ globalContinuity.lighting,
     "CAMERA: " ++ globalContinuity.cameraAxis,
     "MOTION: " ++ globalContinuity.motionEnergy,
     "COLOR GRADING: " ++ globalContinuity.colorPalette,
     "ENVIRONMENT: " ++ globalContinuity.environmentType,
     String.mk (List.replicate 49 '='), ""]
  let sceneSpecific :=
    match scene.continuityConstraints with
    | some c =>
        ["SCENE-SPECIFIC:",
         "- Lighting: " ++ c.lighting,
         "- Camera: " ++ c.cameraAxis,
         "- Motion: " ++ c.motionEnergy]
    | none => []
  let pacing :=
    if decide (scene.absurdityLevel ≤ 3) then
      ["Pacing: Steady, calm, documentary observation. No sudden movements."]
    else if decide (scene.absurdityLevel ≤ 6) then
      ["Pacing: Deliberate, heightened attention. Slight tension building."]
    else
      ["Pacing: Slow, purposeful, almost surreal. Maximum visual impact."]
  let continuity :=
    if hasPreviousFrame then
      ["", "CRITICAL: This video MUST continue seamlessly from the provided image.",
       "Match EXACTLY: lighting direction, color temperature, camera angle, subject position.",
       "Any discontinuity will be detected and rejected."]
    else []
  let quality :=
    ["", "Quality: Cinematic, 4K, professional cinematography, documentary style."]
  String.intercalate "\n"
    (core ++ constraints ++ sceneSpecific ++ pacing ++ continuity ++ quality)

/-- `generateSceneVideo` (`part_004` lines 122-195).  The second
component of the result is the ghost record of the seed image chosen
for the generation request. -/
def generateSceneVideo (env : VideoGenEnv) (input : VideoGeneratorInput) :
    VideoGeneratorDelta × Option String :=
  let scene := input.scene
  let config := input.config
  let prompt := buildVideoPrompt scene input.globalContinuity
    (optStrTruthy input.previousFramePath)
  let imagePath : Option String :=
    if optStrTruthy input.previousFramePath &&
        env.fsExists (input.previousFramePath.getD "") then
      input.previousFramePath
    else if config.useImageToVideo.getD false &&
        optStrTruthy scene.conceptImagePath &&
        env.fsExists (scene.conceptImagePath.getD "") then
      scene.conceptImagePath
    else
      none
  let videoPath := pathJoin3 config.outputDir "scenes"
    (scene.sceneId ++ "_clip.mp4")
  let framePath := pathJoin3 config.outputDir "scenes"
    (scene.sceneId ++ "_continuity_frame.png")
  let request : VideoGenerationRequest :=
    { prompt := prompt
      imagePath := imagePath
      durationSeconds := numOr config.clipDuration 6
      aspectRatio := "16:9"
      outputPath := videoPath }
  let generatedVideoPath := env.generateVideo request
  let continuityFramePath :=
    if env.extractLastFrameOk generatedVideoPath framePath then
      some framePath
    else
      none
  ({ sceneId := scene.sceneId
     videoClipPath := generatedVideoPath
     continuityFramePath := continuityFramePath }, imagePath)

/-- The sequential loop of `generateAllSceneVideos` (`part_004`
lines 203-234), chaining each result's `continuityFramePath` into the
next scene's `previousFramePath`. -/
def generateVideosLoop (env : VideoGenEnv) (trend : Trend)
    (globalContinuity : ContinuityConstraints)
    (config : VideoGeneratorConfig) :
    List Scene → Option String → List (VideoGeneratorDelta × Option String)
  | [], _ => []
  | scene :: rest, previousFramePath =>
      let result := generateSceneVideo env
        { trend := trend, scene := scene,
          globalContinuity := globalContinuity, config := config,
          previousFramePath := previousFramePath }
      result :: generateVideosLoop env trend globalContinuity config rest
        result.1.continuityFramePath

def generateAllSceneVideos (env : VideoGenEnv) (trend : Trend)
    (scenes : List Scene) (globalContinuity : ContinuityConstraints)
    (config : VideoGeneratorConfig) :
    List (VideoGeneratorDelta × Option String) :=
  generateVideosLoop env trend globalContinuity config scenes none

/-! ## INIT stage handler (`stateMachine.ts` lines 183-236) -/

/-- The agents invoked by the INIT handler, as oracle functions. -/
structure InitAgents where
  synthOracle : Int → TrendSynthesizerDelta
  assessOracle : Trend → PatternAnalysis → TrendQuality
  escalationOracle : Trend → Int → EscalationOutput

/-- `validateTrendQualityPassed` condition
(`!state.trendQuality?.passesThreshold`). -/
def trendQualityPassed (state : ProjectState) : Bool :=
  match state.trendQuality with
  | some q => q.passesThreshold
  | none => false

/-- `handleInit`: synthesize under the quality gate, apply
TREND_SYNTHESIZED then TREND_QUALITY_ASSESSED, validate, plan the
escalation, apply ESCALATION_PLANNED, transition to SCRIPTED. -/
def handleInit (agents : InitAgents) (state : ProjectState) (disk : Disk)
    (now : Nat) : Except String ProjectState × Disk :=
  match (synthesizeTrendWithQualityGate agents.synthOracle
      agents.assessOracle state.seed).1 with
  | Except.error e => (Except.error e, disk)
  | Except.ok (synthesis, quality) =>
      match applyDelta state (.TREND_SYNTHESIZED synthesis) disk now with
      | (Except.error e, disk1) => (Except.error e, disk1)
      | (Except.ok state1, disk1) =>
          match applyDelta state1 (.TREND_QUALITY_ASSESSED quality) disk1 now with
          | (Except.error e, disk2) => (Except.error e, disk2)
          | (Except.ok state2, disk2) =>
              if !(trendQualityPassed state2) then
                (Except.error "Trend did not pass quality gate", disk2)
              else
                match state2.trend with
                | none => (Except.error "State is missing required trend data", disk2)
                | some trend =>
                    match planEscalation agents.escalationOracle trend state2.seed with
                    | Except.error e => (Except.error e, disk2)
                    | Except.ok escalationDelta =>
                        match applyDelta state2
                            (.ESCALATION_PLANNED escalationDelta) disk2 now with
                        | (Except.error e, disk3) => (Except.error e, disk3)
                        | (Except.ok state3, disk3) =>
                            transitionStage state3 .SCRIPTED disk3 now

/-! ## Spec-side helper definitions -/

/-- The per-kind stage precondition, as the spec tabulates it. -/
def AgentDelta.requiredStage : AgentDelta → Stage
  | .TREND_SYNTHESIZED _ => .INIT
  | .TREND_QUALITY_ASSESSED _ => .INIT
  | .ESCALATION_PLANNED _ => .INIT
  | .SCENE_VISUALIZED _ => .SCRIPTED
  | .SCENE_VIDEO_GENERATED _ => .VISUALIZED

/-- The tag of a delta, as it appears in error messages. -/
def AgentDelta.typeName : AgentDelta → String
  | .TREND_SYNTHESIZED _ => "TREND_SYNTHESIZED"
  | .TREND_QUALITY_ASSESSED _ => "TREND_QUALITY_ASSESSED"
  | .ESCALATION_PLANNED _ => "ESCALATION_PLANNED"
  | .SCENE_VISUALIZED _ => "SCENE_VISUALIZED"
  | .SCENE_VIDEO_GENERATED _ => "SCENE_VIDEO_GENERATED"

/-- The immediate successor in the fixed linear stage order
INIT → SCRIPTED → VISUALIZED → VIDEO_GENERATED → ASSEMBLED (the spec's
description of the transition table; ASSEMBLED is terminal). -/
def nextStage : Stage → Option Stage
  | .INIT => some .SCRIPTED
  | .SCRIPTED => some .VISUALIZED
  | .VISUALIZED => some .VIDEO_GENERATED
  | .VIDEO_GENERATED => some .ASSEMBLED
  | .ASSEMBLED => none

/-! ## Concrete fixtures used by witnesses and counterexamples -/

def cGC : ContinuityConstraints :=
  { lighting := "soft key light", cameraAxis := "eye-level locked",
    motionEnergy := "moderate", colorPalette := "warm neutrals",
    environmentType := "apartment interior" }

def cPA : PatternAnalysis :=
  { formatPatterns := ["short vertical clips"],
    behaviorPatterns := ["ritualized optimization"],
    algorithmicIncentives := ["watch-through"],
    lifecycleMapping := ["emerge, peak, collapse"] }

def cTrend : Trend :=
  { name := "Inbox Zero Living", promise := "total clarity",
    behaviorPattern := "labels every object", algorithmicHook := "before/after",
    collapsePoint := "empty room" }

def cScene (i : Nat) (lvl : Rat) : Scene :=
  { sceneId := expectedSceneId i, intent := "intent", absurdityLevel := lvl }

def cState0 : ProjectState :=
  { projectId := "trends_1", runId := "r1", seed := 42, createdAt := 0,
    updatedAt := 0, stage := .INIT, patternAnalysis := none, trend := none,
    trendQuality := none, scenes := [], globalContinuity := none,
    error := none, regenerationCount := 0 }

/-! ## Shared lemmas -/

theorem canTransition_iff_nextStage (a b : Stage) :
    canTransition a b = true ↔ nextStage a = some b := by
  cases a <;> cases b <;> decide

theorem projectStateValid_stage_error (s : ProjectState) (t : Stage)
    (e : Option String) :
    projectStateValid { s with stage := t, error := e } = projectStateValid s :=
  rfl

/-- Destructing a successful `finishApply`: the in-memory result is the
computed state (without a fresh timestamp), the file carries the
re-stamped copy. -/
theorem finishApply_ok (newState : ProjectState) (disk : Disk) (now : Nat)
    (s2 : ProjectState) (d2 : Disk)
    (h : finishApply newState disk now = (Except.ok s2, d2)) :
    s2 = newState ∧ d2 = some { newState with updatedAt := now } := by
  unfold finishApply saveState at h
  cases hvb : projectStateValid newState with
  | false => simp [hvb] at h
  | true =>
      simp [hvb] at h
      exact ⟨h.1.symm, h.2.symm⟩

/-- Destructing a failed `finishApply`: the only failure is the save
validation, and the file is untouched. -/
theorem finishApply_error (newState : ProjectState) (disk : Disk) (now : Nat)
    (e : String) (d2 : Disk)
    (h : finishApply newState disk now = (Except.error e, d2)) :
    projectStateValid newState = false ∧ d2 = disk := by
  unfold finishApply saveState at h
  cases hvb : projectStateValid newState with
  | false =>
      simp [hvb] at h
      exact ⟨rfl, h.2.symm⟩
  | true => simp [hvb] at h

/-- A successful `finishApply` additionally certifies that the
persisted state passed the schema validation. -/
theorem finishApply_ok_valid (newState : ProjectState) (disk : Disk)
    (now : Nat) (s2 : ProjectState) (d2 : Disk)
    (h : finishApply newState disk now = (Except.ok s2, d2)) :
    projectStateValid s2 = true ∧ s2 = newState ∧
      d2 = some { s2 with updatedAt := now } := by
  obtain ⟨h1, h2⟩ := finishApply_ok _ _ _ _ _ h
  subst h1
  refine ⟨?_, rfl, h2⟩
  unfold finishApply saveState at h
  cases hvb : projectStateValid s2 with
  | false => simp [hvb] at h
  | true => rfl

theorem transitionStage_ok (s : ProjectState) (t : Stage) (disk : Disk)
    (now : Nat) (s2 : ProjectState) (d2 : Disk)
    (h : transitionStage s t disk now = (Except.ok s2, d2)) :
    s2 = { s with stage := t, error := none } ∧
      d2 = some { s2 with updatedAt := now } := by
  unfold transitionStage at h
  split at h
  · obtain ⟨h1, h2⟩ := finishApply_ok _ _ _ _ _ h
    subst h1
    exact ⟨rfl, h2⟩
  · simp at h

theorem applyDelta_trendSynthesized_ok (state : ProjectState)
    (payload : TrendSynthesizerDelta) (disk : Disk) (now : Nat)
    (s2 : ProjectState) (d2 : Disk)
    (h : applyDelta state (.TREND_SYNTHESIZED payload) disk now =
      (Except.ok s2, d2)) :
    s2 = { state with
        patternAnalysis := some payload.patternAnalysis
        trend := some payload.trend } ∧
      d2 = some { s2 with updatedAt := now } := by
  simp only [applyDelta] at h
  split at h
  · exact absurd h (by simp)
  · obtain ⟨h1, h2⟩ := finishApply_ok _ _ _ _ _ h
    subst h1
    exact ⟨rfl, h2⟩

theorem applyDelta_trendQualityAssessed_ok (state : ProjectState)
    (payload : TrendQualityDelta) (disk : Disk) (now : Nat)
    (s2 : ProjectState) (d2 : Disk)
    (h : applyDelta state (.TREND_QUALITY_ASSESSED payload) disk now =
      (Except.ok s2, d2)) :
    s2 = { state with
        trendQuality := some payload.trendQuality
        regenerationCount :=
          if payload.trendQuality.passesThreshold then
            state.regenerationCount
          else
            state.regenerationCount + 1 } ∧
      d2 = some { s2 with updatedAt := now } := by
  simp only [applyDelta] at h
  split at h
  · exact absurd h (by simp)
  · obtain ⟨h1, h2⟩ := finishApply_ok _ _ _ _ _ h
    subst h1
    exact ⟨rfl, h2⟩

theorem applyDelta_escalationPlanned_ok (state : ProjectState)
    (payload : EscalationPlannerDelta) (disk : Disk) (now : Nat)
    (s2 : ProjectState) (d2 : Disk)
    (h : applyDelta state (.ESCALATION_PLANNED payload) disk now =
      (Except.ok s2, d2)) :
    s2 = { state with
        scenes := payload.scenes
        globalContinuity := some payload.globalContinuity } ∧
      d2 = some { s2 with updatedAt := now } := by
  simp only [applyDelta] at h
  split at h
  · exact absurd h (by simp)
  · obtain ⟨h1, h2⟩ := finishApply_ok _ _ _ _ _ h
    subst h1
    exact ⟨rfl, h2⟩

/-- A successful run of the quality-gate loop carries a passing
assessment. -/
theorem qualityGateLoop_ok_passes
    (synthOracle : Int → TrendSynthesizerDelta)
    (assessOracle : Trend → PatternAnalysis → TrendQuality) :
    ∀ (fuel : Nat) (seed : Int) (attempts : Nat)
      (syn : TrendSynthesizerDelta) (q : TrendQualityDelta),
      (qualityGateLoop synthOracle assessOracle fuel seed attempts).1 =
        Except.ok (syn, q) →
      q.trendQuality.passesThreshold = true := by
  intro fuel
  induction fuel with
  | zero =>
      intro seed attempts syn q h
      simp [qualityGateLoop] at h
  | succ n ih =>
      intro seed attempts syn q h
      simp only [qualityGateLoop] at h
      cases hs : synthesizeTrend synthOracle seed with
      | error e => simp only [hs] at h; simp at h
      | ok syn2 =>
          simp only [hs] at h
          cases ha : assessTrendQuality assessOracle syn2.trend
              syn2.patternAnalysis with
          | error e => simp only [ha] at h; simp at h
          | ok q2 =>
              simp only [ha] at h
              cases hb : q2.trendQuality.passesThreshold with
              | false =>
                  simp only [hb, Bool.false_eq_true, if_false] at h
                  exact ih _ _ _ _ h
              | true =>
                  simp only [hb, if_true, Except.ok.injEq, Prod.mk.injEq] at h
                  obtain ⟨-, h2⟩ := h
                  subst h2
                  exact hb

/-! ## Claims -/

/-- **C1.** For every state and every one of the five delta kinds, if
the state's current stage does not match the delta kind's fixed stage
precondition (INIT for TREND_SYNTHESIZED, TREND_QUALITY_ASSESSED and
ESCALATION_PLANNED; SCRIPTED for SCENE_VISUALIZED; VISUALIZED for
SCENE_VIDEO_GENERATED), then `applyDelta` fails with an error naming
the delta kind and the current stage, and the persisted state is left
unchanged. -/
theorem c1_applyDelta_stage_precondition (state : ProjectState)
    (delta : AgentDelta) (disk : Disk) (now : Nat)
    (h : state.stage ≠ delta.requiredStage) :
    applyDelta state delta disk now =
      (Except.error (illegalDeltaMsg delta.typeName state.stage), disk) := by
  cases delta <;>
    simp only [AgentDelta.requiredStage] at h <;>
    simp [applyDelta, AgentDelta.typeName, h]

/-- Witness for C1 at a concrete input: a SCENE_VISUALIZED delta in
stage INIT is rejected naming the kind and the stage, with no write. -/
theorem c1_witness :
    applyDelta cState0
      (.SCENE_VISUALIZED
        { sceneId := "scene_01", visualPrompt := "p",
          continuityConstraints := cGC, conceptImagePath := "img.png" })
      (some cState0) 9 =
      (Except.error "Cannot apply SCENE_VISUALIZED in stage INIT",
        some cState0) :=
  c1_applyDelta_stage_precondition cState0 _ (some cState0) 9 (by decide)

/-- **C6.** For every ordered pair of stages, `transitionStage`
succeeds exactly when the target is the immediate successor in the
fixed linear order (ASSEMBLED being terminal); on success it persists
the updated state, and for every other pair it fails with the
invalid-transition error and leaves the persisted state unchanged. -/
theorem c6_transitionStage_linear_order (s : ProjectState) (t : Stage)
    (disk : Disk) (now : Nat) (hv : projectStateValid s = true) :
    (nextStage s.stage = some t →
      transitionStage s t disk now =
        (Except.ok { s with stage := t, error := none },
          some { s with stage := t, error := none, updatedAt := now })) ∧
    (nextStage s.stage ≠ some t →
      transitionStage s t disk now =
        (Except.error (invalidTransitionMsg s.stage t), disk)) ∧
    (canTransition s.stage t = true ↔ nextStage s.stage = some t) := by
  refine ⟨?_, ?_, canTransition_iff_nextStage s.stage t⟩
  · intro hn
    have hc : canTransition s.stage t = true :=
      (canTransition_iff_nextStage s.stage t).2 hn
    have hval : projectStateValid { s with stage := t, error := none } = true := by
      rw [projectStateValid_stage_error]; exact hv
    simp [transitionStage, hc, finishApply, saveState, hval]
  · intro hn
    have hc : canTransition s.stage t = false := by
      cases hcc : canTransition s.stage t
      · rfl
      · exact absurd ((canTransition_iff_nextStage s.stage t).1 hcc) hn
    simp [transitionStage, hc]

/-- Witness for C6 at a concrete input: INIT → SCRIPTED succeeds and
INIT → VISUALIZED fails with the invalid-transition error. -/
theorem c6_witness :
    transitionStage cState0 .SCRIPTED none 5 =
      (Except.ok { cState0 with stage := .SCRIPTED, error := none },
        some { cState0 with stage := .SCRIPTED, error := none, updatedAt := 5 }) ∧
    transitionStage cState0 .VISUALIZED none 5 =
      (Except.error (invalidTransitionMsg Stage.INIT Stage.VISUALIZED),
        none) :=
  ⟨(c6_transitionStage_linear_order cState0 .SCRIPTED none 5 (by decide)).1
      (by decide),
    (c6_transitionStage_linear_order cState0 .VISUALIZED none 5
      (by decide)).2.1 (by decide)⟩

/-- **C10.** Every successful stage transition resets the persisted
last-error field to `null`: the state produced by `transitionStage` has
`error = none` even when the input carried a non-null error, and
differs from the input only in `stage`, `error`, and (on disk) the
updated timestamp stamped by save. -/
theorem c10_transition_clears_error (s : ProjectState) (t : Stage)
    (disk : Disk) (now : Nat) (s2 : ProjectState) (d2 : Disk)
    (h : transitionStage s t disk now = (Except.ok s2, d2)) :
    s2.error = none ∧ s2.stage = t ∧
    s2.projectId = s.projectId ∧ s2.runId = s.runId ∧ s2.seed = s.seed ∧
    s2.createdAt = s.createdAt ∧ s2.updatedAt = s.updatedAt ∧
    s2.patternAnalysis = s.patternAnalysis ∧ s2.trend = s.trend ∧
    s2.trendQuality = s.trendQuality ∧ s2.scenes = s.scenes ∧
    s2.globalContinuity = s.globalContinuity ∧
    s2.regenerationCount = s.regenerationCount ∧
    d2 = some { s2 with updatedAt := now } := by
  unfold transitionStage at h
  split at h
  · obtain ⟨h1, h2⟩ := finishApply_ok _ _ _ _ _ h
    subst h1
    subst h2
    exact ⟨rfl, rfl, rfl, rfl, rfl, rfl, rfl, rfl, rfl, rfl, rfl, rfl,
      rfl, rfl⟩
  · simp at h

def cStateErr : ProjectState := { cState0 with error := some "boom" }

def cStateErrNext : ProjectState :=
  { cStateErr with stage := Stage.SCRIPTED, error := none }

/-- Witness for C10 at a concrete input: transitioning a state that
carries an error message to its successor stage clears the error. -/
theorem c10_witness : cStateErrNext.error = none :=
  (c10_transition_clears_error cStateErr Stage.SCRIPTED none 7
    cStateErrNext (some { cStateErrNext with updatedAt := 7 }) rfl).1

/-- The scene visualized by a SCENE_VISUALIZED payload: only the three
named fields change. -/
def applyVisualLocker (old : Scene) (p : VisualLockerDelta) : Scene :=
  { old with
      visualPrompt := some p.visualPrompt
      continuityConstraints := some p.continuityConstraints
      conceptImagePath := some p.conceptImagePath }

/-- The scene updated by a SCENE_VIDEO_GENERATED payload: only the two
named fields change. -/
def applyVideoGenerator (old : Scene) (p : VideoGeneratorDelta) : Scene :=
  { old with
      videoClipPath := some p.videoClipPath
      continuityFramePath := p.continuityFramePath }

/-- **C9.** For the two per-scene delta kinds, `applyDelta` locates the
target scene by its `sceneId` (failing with the scene-not-found error
and no write when absent); on success it updates only the fields named
in the payload of the located scene, leaves every other scene
unchanged, and leaves all non-scene fields of the state unchanged apart
from the updated timestamp stamped by save on the persisted copy. -/
theorem c9_scene_delta_targets_one_scene :
    (∀ (state : ProjectState) (p : VisualLockerDelta) (disk : Disk) (now : Nat),
      state.stage = Stage.SCRIPTED →
      state.scenes.findIdx? (fun s => s.sceneId == p.sceneId) = none →
      applyDelta state (.SCENE_VISUALIZED p) disk now =
        (Except.error (sceneNotFoundMsg p.sceneId), disk)) ∧
    (∀ (state : ProjectState) (p : VisualLockerDelta) (disk : Disk) (now : Nat)
        (s2 : ProjectState) (d2 : Disk) (i : Nat) (old : Scene),
      applyDelta state (.SCENE_VISUALIZED p) disk now = (Except.ok s2, d2) →
      state.scenes.findIdx? (fun s => s.sceneId == p.sceneId) = some i →
      state.scenes.get? i = some old →
      s2.scenes = state.scenes.set i (applyVisualLocker old p) ∧
      s2.scenes.get? i = some (applyVisualLocker old p) ∧
      (∀ j, j ≠ i → s2.scenes.get? j = state.scenes.get? j) ∧
      s2.projectId = state.projectId ∧ s2.runId = state.runId ∧
      s2.seed = state.seed ∧ s2.createdAt = state.createdAt ∧
      s2.updatedAt = state.updatedAt ∧ s2.stage = state.stage ∧
      s2.patternAnalysis = state.patternAnalysis ∧ s2.trend = state.trend ∧
      s2.trendQuality = state.trendQuality ∧
      s2.globalContinuity = state.globalContinuity ∧
      s2.error = state.error ∧
      s2.regenerationCount = state.regenerationCount ∧
      d2 = some { s2 with updatedAt := now }) ∧
    (∀ (state : ProjectState) (p : VideoGeneratorDelta) (disk : Disk) (now : Nat),
      state.stage = Stage.VISUALIZED →
      state.scenes.findIdx? (fun s => s.sceneId == p.sceneId) = none →
      applyDelta state (.SCENE_VIDEO_GENERATED p) disk now =
        (Except.error (sceneNotFoundMsg p.sceneId), disk)) ∧
    (∀ (state : ProjectState) (p : VideoGeneratorDelta) (disk : Disk) (now : Nat)
        (s2 : ProjectState) (d2 : Disk) (i : Nat) (old : Scene),
      applyDelta state (.SCENE_VIDEO_GENERATED p) disk now = (Except.ok s2, d2) →
      state.scenes.findIdx? (fun s => s.sceneId == p.sceneId) = some i →
      state.scenes.get? i = some old →
      s2.scenes = state.scenes.set i (applyVideoGenerator old p) ∧
      s2.scenes.get? i = some (applyVideoGenerator old p) ∧
      (∀ j, j ≠ i → s2.scenes.get? j = state.scenes.get? j) ∧
      s2.projectId = state.projectId ∧ s2.runId = state.runId ∧
      s2.seed = state.seed ∧ s2.createdAt = state.createdAt ∧
      s2.updatedAt = state.updatedAt ∧ s2.stage = state.stage ∧
      s2.patternAnalysis = state.patternAnalysis ∧ s2.trend = state.trend ∧
      s2.trendQuality = state.trendQuality ∧
      s2.globalContinuity = state.globalContinuity ∧
      s2.error = state.error ∧
      s2.regenerationCount = state.regenerationCount ∧
      d2 = some { s2 with updatedAt := now }) := by
  refine ⟨?_, ?_, ?_, ?_⟩
  · intro state p disk now hstage hfind
    simp only [applyDelta]
    rw [hstage, hfind]
    simp
  · intro state p disk now s2 d2 i old happly hfind hold
    simp only [applyDelta] at happly
    split at happly
    · exact absurd happly (by simp)
    · rw [hfind] at happly
      simp only [hold] at happly
      obtain ⟨h1, h2⟩ := finishApply_ok _ _ _ _ _ happly
      subst h1
      refine ⟨rfl, ?_, ?_, rfl, rfl, rfl, rfl, rfl, rfl, rfl, rfl, rfl,
        rfl, rfl, rfl, h2⟩
      · show (state.scenes.set i (applyVisualLocker old p)).get? i =
          some (applyVisualLocker old p)
        rw [List.get?_set_eq, hold]
        rfl
      · intro j hj
        exact List.get?_set_ne _ state.scenes (Ne.symm hj)
  · intro state p disk now hstage hfind
    simp only [applyDelta]
    rw [hstage, hfind]
    simp
  · intro state p disk now s2 d2 i old happly hfind hold
    simp only [applyDelta] at happly
    split at happly
    · exact absurd happly (by simp)
    · rw [hfind] at happly
      simp only [hold] at happly
      obtain ⟨h1, h2⟩ := finishApply_ok _ _ _ _ _ happly
      subst h1
      refine ⟨rfl, ?_, ?_, rfl, rfl, rfl, rfl, rfl, rfl, rfl, rfl, rfl,
        rfl, rfl, rfl, h2⟩
      · show (state.scenes.set i (applyVideoGenerator old p)).get? i =
          some (applyVideoGenerator old p)
        rw [List.get?_set_eq, hold]
        rfl
      · intro j hj
        exact List.get?_set_ne _ state.scenes (Ne.symm hj)

def cStateScripted : ProjectState :=
  { cState0 with
      stage := .SCRIPTED
      trend := some cTrend
      patternAnalysis := some cPA
      globalContinuity := some cGC
      scenes := [cScene 0 2, cScene 1 4] }

def cVLD : VisualLockerDelta :=
  { sceneId := "scene_02", visualPrompt := "vp",
    continuityConstraints := cGC, conceptImagePath := "img.png" }

def c9s2 : ProjectState :=
  { cStateScripted with
      scenes := cStateScripted.scenes.set 1 (applyVisualLocker (cScene 1 4) cVLD) }

/-- Witness for C9 at concrete inputs: visualizing scene_02 leaves
scene_01 untouched, and a delta naming an absent scene fails with the
scene-not-found error and no write. -/
theorem c9_witness :
    c9s2.scenes.get? 0 = cStateScripted.scenes.get? 0 ∧
    applyDelta cStateScripted
        (.SCENE_VISUALIZED { cVLD with sceneId := "nope" }) none 11 =
      (Except.error (sceneNotFoundMsg "nope"), none) :=
  ⟨(c9_scene_delta_targets_one_scene.2.1 cStateScripted cVLD none 11 c9s2
      (some { c9s2 with updatedAt := 11 }) 1 (cScene 1 4) rfl rfl rfl).2.2.1 0
      (by decide),
    c9_scene_delta_targets_one_scene.1 cStateScripted
      { cVLD with sceneId := "nope" } none 11 rfl rfl⟩

/-! ## C2: regeneration bookkeeping -/

def exceptToOption {ε α : Type} : Except ε α → Option α
  | Except.ok a => some a
  | Except.error _ => none

def cQualityHigh : TrendQuality :=
  { plausibilityScore := 8, cloneabilityScore := 8,
    lifecycleCompletenessScore := 8, overallScore := 8,
    passesThreshold := true, rejectionReason := none }

def cQualityLow : TrendQuality :=
  { plausibilityScore := 2, cloneabilityScore := 2,
    lifecycleCompletenessScore := 2, overallScore := 2,
    passesThreshold := false, rejectionReason := none }

/-- Stubbed synthesis agent: a valid trend whose name encodes the seed
it was called with. -/
def c2Synth (s : Int) : TrendSynthesizerDelta :=
  { patternAnalysis := cPA, trend := { cTrend with name := "t" ++ toString s } }

/-- Stubbed quality-assessment agent: fails the threshold on the trends
synthesized from the first two seeds of the gate loop (42 and 1043) and
passes on the third (2045) — the claim's attempts 1-2 fail / attempt 3
passes scenario for a project with seed 42. -/
def c2Assess (t : Trend) (_ : PatternAnalysis) : TrendQuality :=
  if t.name == "t2045" then cQualityHigh else cQualityLow

/-- Stubbed escalation agent: four valid, escalating, sequentially
named scenes. -/
def c2EscScenes : List SceneOutline :=
  [{ sceneId := expectedSceneId 0, intent := "i", absurdityLevel := 2 },
   { sceneId := expectedSceneId 1, intent := "i", absurdityLevel := 4 },
   { sceneId := expectedSceneId 2, intent := "i", absurdityLevel := 6 },
   { sceneId := expectedSceneId 3, intent := "i", absurdityLevel := 8 }]

def c2Esc (_ : Trend) (_ : Int) : EscalationOutput :=
  { globalContinuity := cGC, scenes := c2EscScenes }

def c2Agents : InitAgents :=
  { synthOracle := c2Synth, assessOracle := c2Assess, escalationOracle := c2Esc }

/-- **C2 (counterexample).** In the exact scenario of the claim — the
quality agent fails on attempts 1 and 2 and passes on attempt 3 — the
INIT handler completes successfully but the persisted state has
`regenerationCount = 0`, not 2: the rejected attempts live inside the
agent's own retry loop and are never applied as TREND_QUALITY_ASSESSED
deltas. -/
theorem c2_counterexample :
    (exceptToOption (handleInit c2Agents cState0 none 7).1).map
        ProjectState.regenerationCount = some 0 ∧
    (exceptToOption (handleInit c2Agents cState0 none 7).1).map
        ProjectState.regenerationCount ≠ some 2 := by
  constructor
  · rfl
  · decide

/-- **C2 (amended).** `applyDelta` of a TREND_QUALITY_ASSESSED delta
increments `regenerationCount` exactly when the carried quality result
fails its threshold; but the INIT handler's quality-gate loop returns
only the final passing assessment and never routes rejected attempts
through `applyDelta`, so a successful `handleInit` always leaves
`regenerationCount` unchanged (0 in the claim's scenario, not 2). -/
theorem c2_regeneration_bookkeeping :
    (∀ (agents : InitAgents) (state : ProjectState) (disk : Disk) (now : Nat)
        (s2 : ProjectState) (d2 : Disk),
      handleInit agents state disk now = (Except.ok s2, d2) →
      s2.regenerationCount = state.regenerationCount) ∧
    (∀ (state : ProjectState) (q : TrendQualityDelta) (disk : Disk) (now : Nat)
        (s2 : ProjectState) (d2 : Disk),
      applyDelta state (.TREND_QUALITY_ASSESSED q) disk now = (Except.ok s2, d2) →
      s2.regenerationCount =
        (if q.trendQuality.passesThreshold then state.regenerationCount
         else state.regenerationCount + 1)) := by
  constructor
  · intro agents state disk now s2 d2 h
    unfold handleInit at h
    split at h
    · exact absurd h (by simp)
    · rename_i synthesis quality heq
      split at h
      · exact absurd h (by simp)
      · rename_i state1 disk1 heq1
        split at h
        · exact absurd h (by simp)
        · rename_i state2 disk2 heq2
          split at h
          · exact absurd h (by simp)
          · split at h
            · exact absurd h (by simp)
            · rename_i trend htrend
              split at h
              · exact absurd h (by simp)
              · rename_i escDelta heqPlan
                split at h
                · exact absurd h (by simp)
                · rename_i state3 disk3 heq3
                  obtain ⟨hs2, -⟩ := transitionStage_ok _ _ _ _ _ _ h
                  subst hs2
                  obtain ⟨h1eq, -⟩ :=
                    applyDelta_trendSynthesized_ok _ _ _ _ _ _ heq1
                  obtain ⟨h2eq, -⟩ :=
                    applyDelta_trendQualityAssessed_ok _ _ _ _ _ _ heq2
                  obtain ⟨h3eq, -⟩ :=
                    applyDelta_escalationPlanned_ok _ _ _ _ _ _ heq3
                  have hpass : quality.trendQuality.passesThreshold = true :=
                    qualityGateLoop_ok_passes _ _ _ _ _ _ _ heq
                  subst h3eq
                  subst h2eq
                  subst h1eq
                  simp [hpass]
  · intro state q disk now s2 d2 h
    obtain ⟨h1, -⟩ := applyDelta_trendQualityAssessed_ok _ _ _ _ _ _ h
    subst h1
    rfl

def c2FailState : ProjectState :=
  { cState0 with
      trendQuality := some cQualityLow
      regenerationCount := cState0.regenerationCount + 1 }

/-- The state the C2 scenario run ends in. -/
def c2Final : ProjectState :=
  { cState0 with
      stage := Stage.SCRIPTED
      patternAnalysis := some cPA
      trend := some { cTrend with name := "t2045" }
      trendQuality := some cQualityHigh
      scenes := c2EscScenes.map outlineToScene
      globalContinuity := some cGC }

/-- Witness for C2's amended theorem at concrete inputs: the scenario
run of `handleInit` preserves the regeneration counter, and applying a
failing TREND_QUALITY_ASSESSED delta in stage INIT increments it by
one. -/
theorem c2_witness :
    c2Final.regenerationCount = cState0.regenerationCount ∧
    c2FailState.regenerationCount =
      (if (cQualityLow : TrendQuality).passesThreshold then
        cState0.regenerationCount
      else cState0.regenerationCount + 1) :=
  ⟨c2_regeneration_bookkeeping.1 c2Agents cState0 none 7 c2Final
      (some { c2Final with updatedAt := 7 }) rfl,
    c2_regeneration_bookkeeping.2 cState0 { trendQuality := cQualityLow }
      none 3 c2FailState (some { c2FailState with updatedAt := 3 }) rfl⟩

/-! ## C3: quality-gate exhaustion -/

/-- **C3.** If the agents fail the threshold on every attempt, the
INIT handler's quality-gate loop performs exactly
MAX_REGENERATION_ATTEMPTS = 3 attempts, each synthesis call using a
distinct seed deterministically derived from the original seed and the
attempt count (seed, seed+1001, seed+2003), and then fails fatally with
the surfaced exhaustion error — which the INIT handler propagates with
no write — rather than proceeding with a below-threshold trend. -/
theorem c3_quality_gate_exhaustion
    (synthOracle : Int → TrendSynthesizerDelta)
    (assessOracle : Trend → PatternAnalysis → TrendQuality)
    (hsv : ∀ s : Int, patternAnalysisValid (synthOracle s).patternAnalysis = true ∧
      trendValid (synthOracle s).trend = true)
    (hqv : ∀ (t : Trend) (pa : PatternAnalysis),
      trendQualityValid (assessOracle t pa) = true)
    (hfail : ∀ (t : Trend) (pa : PatternAnalysis),
      ¬ QUALITY_THRESHOLD ≤ (assessOracle t pa).overallScore)
    (seed : Int) :
    (synthesizeTrendWithQualityGate synthOracle assessOracle seed).1 =
      Except.error gateExhaustedMsg ∧
    (synthesizeTrendWithQualityGate synthOracle assessOracle seed).2 =
      [seed, seed + 1001, seed + 2003] ∧
    (seed ≠ seed + 1001 ∧ seed ≠ seed + 2003 ∧ seed + 1001 ≠ seed + 2003) ∧
    (∀ (agents : InitAgents) (state : ProjectState) (disk : Disk) (now : Nat),
      agents.synthOracle = synthOracle → agents.assessOracle = assessOracle →
      state.seed = seed →
      handleInit agents state disk now = (Except.error gateExhaustedMsg, disk)) := by
  have hsynth : ∀ s : Int,
      synthesizeTrend synthOracle s = Except.ok (synthOracle s) := by
    intro s
    simp [synthesizeTrend, (hsv s).1, (hsv s).2]
  have hassess : ∀ (t : Trend) (pa : PatternAnalysis),
      ∃ q : TrendQualityDelta,
        assessTrendQuality assessOracle t pa = Except.ok q ∧
        q.trendQuality.passesThreshold = false := by
    intro t pa
    have hp : decide (QUALITY_THRESHOLD ≤ (assessOracle t pa).overallScore)
        = false := decide_eq_false (hfail t pa)
    cases ht : optStrTruthy (assessOracle t pa).rejectionReason with
    | true =>
        refine ⟨⟨{ assessOracle t pa with passesThreshold := false }⟩, ?_, rfl⟩
        simp [assessTrendQuality, hqv t pa, hp, ht]
    | false =>
        refine ⟨⟨{ { assessOracle t pa with passesThreshold := false } with
          rejectionReason := some "Overall score below threshold" }⟩, ?_, rfl⟩
        simp [assessTrendQuality, hqv t pa, hp, ht]
  have step : ∀ (fuel : Nat) (s : Int) (attempts : Nat),
      qualityGateLoop synthOracle assessOracle (fuel + 1) s attempts =
        ((qualityGateLoop synthOracle assessOracle fuel
            (s + 1000 + Int.ofNat (attempts + 1)) (attempts + 1)).1,
          s :: (qualityGateLoop synthOracle assessOracle fuel
            (s + 1000 + Int.ofNat (attempts + 1)) (attempts + 1)).2) := by
    intro fuel s attempts
    obtain ⟨q, hq, hp2⟩ :=
      hassess (synthOracle s).trend (synthOracle s).patternAnalysis
    simp only [qualityGateLoop, hsynth s, hq, hp2, Bool.false_eq_true,
      if_false]
  have e1 : qualityGateLoop synthOracle assessOracle 3 seed 0 =
      ((qualityGateLoop synthOracle assessOracle 2
          (seed + 1000 + Int.ofNat 1) 1).1,
        seed :: (qualityGateLoop synthOracle assessOracle 2
          (seed + 1000 + Int.ofNat 1) 1).2) := step 2 seed 0
  have e2 : qualityGateLoop synthOracle assessOracle 2
      (seed + 1000 + Int.ofNat 1) 1 =
      ((qualityGateLoop synthOracle assessOracle 1
          (seed + 1000 + Int.ofNat 1 + 1000 + Int.ofNat 2) 2).1,
        (seed + 1000 + Int.ofNat 1) ::
          (qualityGateLoop synthOracle assessOracle 1
            (seed + 1000 + Int.ofNat 1 + 1000 + Int.ofNat 2) 2).2) :=
    step 1 (seed + 1000 + Int.ofNat 1) 1
  have e3 : qualityGateLoop synthOracle assessOracle 1
      (seed + 1000 + Int.ofNat 1 + 1000 + Int.ofNat 2) 2 =
      ((qualityGateLoop synthOracle assessOracle 0
          (seed + 1000 + Int.ofNat 1 + 1000 + Int.ofNat 2 + 1000 +
            Int.ofNat 3) 3).1,
        (seed + 1000 + Int.ofNat 1 + 1000 + Int.ofNat 2) ::
          (qualityGateLoop synthOracle assessOracle 0
            (seed + 1000 + Int.ofNat 1 + 1000 + Int.ofNat 2 + 1000 +
              Int.ofNat 3) 3).2) :=
    step 0 (seed + 1000 + Int.ofNat 1 + 1000 + Int.ofNat 2) 2
  have etot : synthesizeTrendWithQualityGate synthOracle assessOracle seed =
      (Except.error gateExhaustedMsg,
        [seed, seed + 1000 + Int.ofNat 1,
          seed + 1000 + Int.ofNat 1 + 1000 + Int.ofNat 2]) := by
    show qualityGateLoop synthOracle assessOracle 3 seed 0 = _
    rw [e1, e2, e3]
    rfl
  refine ⟨?_, ?_, ⟨by omega, by omega, by omega⟩, ?_⟩
  · rw [etot]
  · rw [etot]
    have g2 : seed + 1000 + Int.ofNat 1 + 1000 + Int.ofNat 2 = seed + 2003 := by
      show seed + 1000 + 1 + 1000 + 2 = seed + 2003
      omega
    have g1 : seed + 1000 + Int.ofNat 1 = seed + 1001 := by
      show seed + 1000 + 1 = seed + 1001
      omega
    rw [g2, g1]
  · intro agents state disk now h1 h2 h3
    unfold handleInit
    rw [h1, h2, h3, etot]

def c3Synth : Int → TrendSynthesizerDelta := fun _ => ⟨cPA, cTrend⟩

def c3Assess : Trend → PatternAnalysis → TrendQuality := fun _ _ => cQualityLow

/-- Witness for C3 at a concrete input: an always-failing assessment
stub makes the gate try exactly seeds 42, 1043, 2045 and surface the
exhaustion error. -/
theorem c3_witness :
    (synthesizeTrendWithQualityGate c3Synth c3Assess 42).1 =
      Except.error gateExhaustedMsg ∧
    (synthesizeTrendWithQualityGate c3Synth c3Assess 42).2 =
      [42, 1043, 2045] := by
  have hsv : ∀ s : Int,
      patternAnalysisValid (c3Synth s).patternAnalysis = true ∧
      trendValid (c3Synth s).trend = true := by
    intro s
    constructor
    · show patternAnalysisValid cPA = true
      decide
    · show trendValid cTrend = true
      decide
  have hqv : ∀ (t : Trend) (pa : PatternAnalysis),
      trendQualityValid (c3Assess t pa) = true := by
    intro t pa
    show trendQualityValid cQualityLow = true
    decide
  have hfail : ∀ (t : Trend) (pa : PatternAnalysis),
      ¬ QUALITY_THRESHOLD ≤ (c3Assess t pa).overallScore := by
    intro t pa
    show ¬ QUALITY_THRESHOLD ≤ cQualityLow.overallScore
    decide
  have h := c3_quality_gate_exhaustion c3Synth c3Assess hsv hqv hfail 42
  exact ⟨h.1, h.2.1⟩

/-! ## C4: validation boundary -/

def c4TwoScenes : List Scene := [cScene 0 2, cScene 1 4]

def c4s2 : ProjectState :=
  { cState0 with scenes := c4TwoScenes, globalContinuity := some cGC }

/-- **C4 (counterexample).** An ESCALATION_PLANNED delta carrying only
2 schema-valid scenes is accepted by `applyDelta` and persisted:
`ProjectStateSchema` places no [4..6] bound on the scene sequence, so
the claim's "fails loudly and is never persisted" does not hold. -/
theorem c4_counterexample :
    applyDelta cState0
        (.ESCALATION_PLANNED { scenes := c4TwoScenes, globalContinuity := cGC })
        none 3 =
      (Except.ok c4s2, some { c4s2 with updatedAt := 3 }) ∧
    c4s2.scenes.length = 2 := ⟨rfl, rfl⟩

/-- **C4 (amended).** Every write into the persisted state is checked
against `ProjectStateSchema`'s validation (field-level: non-empty
strings, numeric ranges), which however places no length bound on the
scene sequence; the 4-to-6-scene bound is enforced only by the
escalation planner agent's own output schema, before the delta reaches
`applyDelta`. -/
theorem c4_validation_boundary :
    (∀ (state : ProjectState) (delta : AgentDelta) (disk : Disk) (now : Nat)
        (s2 : ProjectState) (d2 : Disk),
      applyDelta state delta disk now = (Except.ok s2, d2) →
      projectStateValid s2 = true ∧ d2 = some { s2 with updatedAt := now }) ∧
    (∀ (state : ProjectState) (disk : Disk) (now : Nat) (u : Unit) (d2 : Disk),
      saveState state disk now = (Except.ok u, d2) →
      projectStateValid state = true) ∧
    (∀ o : EscalationOutput, escalationOutputValid o = true →
      4 ≤ o.scenes.length ∧ o.scenes.length ≤ 6) := by
  refine ⟨?_, ?_, ?_⟩
  · intro state delta disk now s2 d2 h
    cases delta with
    | TREND_SYNTHESIZED p =>
        simp only [applyDelta] at h
        split at h
        · exact absurd h (by simp)
        · obtain ⟨hv, h1, h2⟩ := finishApply_ok_valid _ _ _ _ _ h
          exact ⟨hv, h2⟩
    | TREND_QUALITY_ASSESSED p =>
        simp only [applyDelta] at h
        split at h
        · exact absurd h (by simp)
        · obtain ⟨hv, h1, h2⟩ := finishApply_ok_valid _ _ _ _ _ h
          exact ⟨hv, h2⟩
    | ESCALATION_PLANNED p =>
        simp only [applyDelta] at h
        split at h
        · exact absurd h (by simp)
        · obtain ⟨hv, h1, h2⟩ := finishApply_ok_valid _ _ _ _ _ h
          exact ⟨hv, h2⟩
    | SCENE_VISUALIZED p =>
        simp only [applyDelta] at h
        split at h
        · exact absurd h (by simp)
        · split at h
          · exact absurd h (by simp)
          · split at h
            · exact absurd h (by simp)
            · obtain ⟨hv, h1, h2⟩ := finishApply_ok_valid _ _ _ _ _ h
              exact ⟨hv, h2⟩
    | SCENE_VIDEO_GENERATED p =>
        simp only [applyDelta] at h
        split at h
        · exact absurd h (by simp)
        · split at h
          · exact absurd h (by simp)
          · split at h
            · exact absurd h (by simp)
            · obtain ⟨hv, h1, h2⟩ := finishApply_ok_valid _ _ _ _ _ h
              exact ⟨hv, h2⟩
  · intro state disk now u d2 h
    unfold saveState at h
    split at h
    · rename_i hv
      exact hv
    · simp at h
  · intro o ho
    unfold escalationOutputValid at ho
    simp only [Bool.and_eq_true, decide_eq_true_eq] at ho
    exact ⟨ho.1.2, ho.2⟩

/-- Witness for C4's amended theorem at concrete inputs: the 2-scene
persisted state passes the schema validation, and the escalation
agent's own output schema does bound the scene count. -/
theorem c4_witness :
    (projectStateValid c4s2 = true ∧
      (some { c4s2 with updatedAt := 3 } : Disk) =
        some { c4s2 with updatedAt := 3 }) ∧
    (4 ≤ (c2Esc cTrend 0).scenes.length ∧
      (c2Esc cTrend 0).scenes.length ≤ 6) :=
  ⟨c4_validation_boundary.1 cState0
      (.ESCALATION_PLANNED { scenes := c4TwoScenes, globalContinuity := cGC })
      none 3 c4s2 (some { c4s2 with updatedAt := 3 }) rfl,
    c4_validation_boundary.2.2 (c2Esc cTrend 0) (by decide)⟩

/-! ## C5: escalation invariant -/

theorem absurdityEscalates_get? :
    ∀ (l : List SceneOutline), absurdityEscalates l = true →
    ∀ (i : Nat) (a b : SceneOutline), l.get? i = some a →
      l.get? (i+1) = some b → a.absurdityLevel < b.absurdityLevel := by
  intro l
  induction l with
  | nil =>
      intro h i a b ha hb
      simp at ha
  | cons x t ih =>
      intro h i a b ha hb
      cases i with
      | zero =>
          rw [List.get?_cons_zero, Option.some.injEq] at ha
          subst ha
          rw [List.get?_cons_succ] at hb
          cases t with
          | nil => simp at hb
          | cons y t2 =>
              rw [List.get?_cons_zero, Option.some.injEq] at hb
              subst hb
              unfold absurdityEscalates at h
              rw [Bool.and_eq_true, decide_eq_true_eq] at h
              exact h.1
      | succ n =>
          rw [List.get?_cons_succ] at ha hb
          refine ih ?_ n a b ha hb
          cases t with
          | nil => rfl
          | cons y t2 =>
              unfold absurdityEscalates at h
              rw [Bool.and_eq_true] at h
              exact h.2

theorem sceneIdsSequentialFrom_get? :
    ∀ (l : List SceneOutline) (k : Nat), sceneIdsSequentialFrom k l = true →
    ∀ (i : Nat) (a : SceneOutline), l.get? i = some a →
      a.sceneId = expectedSceneId (k + i) := by
  intro l
  induction l with
  | nil =>
      intro k h i a ha
      simp at ha
  | cons x t ih =>
      intro k h i a ha
      unfold sceneIdsSequentialFrom at h
      rw [Bool.and_eq_true] at h
      obtain ⟨h1, h2⟩ := h
      cases i with
      | zero =>
          rw [List.get?_cons_zero, Option.some.injEq] at ha
          subst ha
          rw [Nat.add_zero]
          exact eq_of_beq h1
      | succ n =>
          rw [List.get?_cons_succ] at ha
          have hres := ih (k+1) h2 n a ha
          rw [show k + (n+1) = k + 1 + n from by omega]
          exact hres

def c5BadScenes : List Scene :=
  [{ sceneId := "a", intent := "i", absurdityLevel := 5 },
   { sceneId := "b", intent := "i", absurdityLevel := 3 },
   { sceneId := "c", intent := "i", absurdityLevel := 6 },
   { sceneId := "d", intent := "i", absurdityLevel := 7 }]

def c5s2 : ProjectState :=
  { cState0 with scenes := c5BadScenes, globalContinuity := some cGC }

/-- **C5 (counterexample).** `applyDelta` itself does not check
escalation or naming: an ESCALATION_PLANNED delta whose scenes are
schema-valid but neither strictly escalating (5 then 3) nor
sequentially named ("a", "b", ...) is applied and persisted
successfully, violating the claimed invariant. -/
theorem c5_counterexample :
    applyDelta cState0
        (.ESCALATION_PLANNED { scenes := c5BadScenes, globalContinuity := cGC })
        none 3 =
      (Except.ok c5s2, some { c5s2 with updatedAt := 3 }) ∧
    c5s2.scenes.map Scene.absurdityLevel = [5, 3, 6, 7] ∧
    ¬ ((5:Rat) < 3) ∧
    c5s2.scenes.map Scene.sceneId = ["a", "b", "c", "d"] ∧
    "a" ≠ expectedSceneId 0 :=
  ⟨rfl, rfl, by decide, rfl, by decide⟩

/-- **C5 (amended).** After a successful application of an
ESCALATION_PLANNED delta *produced by the escalation planner agent*
(whose output validation enforces strict absurdity escalation and
zero-padded sequential scene identifiers), the persisted state
satisfies: for every i, scenes[i].absurdityLevel <
scenes[i+1].absurdityLevel and scenes[i].sceneId is the zero-padded
sequential identifier for position i.  `applyDelta` alone does not
enforce this. -/
theorem c5_escalation_invariant
    (oracle : Trend → Int → EscalationOutput) (trend : Trend) (seed : Int)
    (delta : EscalationPlannerDelta) (state : ProjectState) (disk : Disk)
    (now : Nat) (s2 : ProjectState) (d2 : Disk)
    (hplan : planEscalation oracle trend seed = Except.ok delta)
    (happly : applyDelta state (.ESCALATION_PLANNED delta) disk now =
      (Except.ok s2, d2)) :
    (∀ (i : Nat) (a b : Scene), s2.scenes.get? i = some a →
      s2.scenes.get? (i+1) = some b →
      a.absurdityLevel < b.absurdityLevel) ∧
    (∀ (i : Nat) (a : Scene), s2.scenes.get? i = some a →
      a.sceneId = expectedSceneId i) := by
  obtain ⟨hs2, -⟩ := applyDelta_escalationPlanned_ok _ _ _ _ _ _ happly
  subst hs2
  unfold planEscalation at hplan
  dsimp only [] at hplan
  split at hplan
  · exact absurd hplan (by simp)
  · split at hplan
    · exact absurd hplan (by simp)
    · split at hplan
      · exact absurd hplan (by simp)
      · rename_i hval hesc hids
        simp only [Except.ok.injEq] at hplan
        subst hplan
        have hesc2 : absurdityEscalates (oracle trend seed).scenes = true := by
          cases hb : absurdityEscalates (oracle trend seed).scenes
          · exact absurd (by rw [hb]; rfl) hesc
          · rfl
        have hids2 : sceneIdsSequentialFrom 0 (oracle trend seed).scenes = true := by
          cases hb : sceneIdsSequentialFrom 0 (oracle trend seed).scenes
          · exact absurd (by rw [hb]; rfl) hids
          · rfl
        constructor
        · intro i a b ha hb
          simp only [List.get?_map] at ha hb
          obtain ⟨a0, ha0, ha1⟩ := Option.map_eq_some'.mp ha
          obtain ⟨b0, hb0, hb1⟩ := Option.map_eq_some'.mp hb
          subst ha1
          subst hb1
          exact absurdityEscalates_get? _ hesc2 i a0 b0 ha0 hb0
        · intro i a ha
          simp only [List.get?_map] at ha
          obtain ⟨a0, ha0, ha1⟩ := Option.map_eq_some'.mp ha
          subst ha1
          have hres := sceneIdsSequentialFrom_get? _ 0 hids2 i a0 ha0
          rw [Nat.zero_add] at hres
          exact hres

def c5GoodDelta : EscalationPlannerDelta :=
  { scenes := c2EscScenes.map outlineToScene, globalContinuity := cGC }

def c5w2 : ProjectState :=
  { cState0 with
      scenes := c2EscScenes.map outlineToScene
      globalContinuity := some cGC }

def c5oA : SceneOutline :=
  { sceneId := expectedSceneId 0, intent := "i", absurdityLevel := 2 }

def c5oB : SceneOutline :=
  { sceneId := expectedSceneId 1, intent := "i", absurdityLevel := 4 }

/-- Witness for C5's amended theorem at a concrete input: after
applying the planner-produced 4-scene delta, adjacent absurdity levels
strictly increase. -/
theorem c5_witness :
    Scene.absurdityLevel (outlineToScene c5oA) <
      Scene.absurdityLevel (outlineToScene c5oB) :=
  (c5_escalation_invariant c2Esc cTrend 0 c5GoodDelta cState0 none 3 c5w2
      (some { c5w2 with updatedAt := 3 }) rfl rfl).1 0
    (outlineToScene c5oA) (outlineToScene c5oB) rfl rfl

/-! ## C8: load idempotence -/

theorem trends_projectId_ne_empty (r : Nat) :
    ("trends_" ++ Nat.repr r) ≠ "" := by
  intro h
  have hlen := congrArg String.length h
  rw [String.length_append] at hlen
  have h7 : String.length "trends_" = 7 := rfl
  have h0 : String.length "" = 0 := rfl
  rw [h7, h0] at hlen
  omega

theorem createInitialState_valid (nowT : Nat) (runId : String)
    (freshSeed : Int) (hr : runId ≠ "") :
    projectStateValid (createInitialState none nowT runId freshSeed) = true := by
  unfold projectStateValid createInitialState
  simp [bne_iff_ne, trends_projectId_ne_empty, hr]

theorem projectStateValid_updatedAt (s : ProjectState) (n : Nat) :
    projectStateValid { s with updatedAt := n } = projectStateValid s :=
  rfl

/-- **C8 (counterexample).** When the first load has to synthesize and
persist a fresh initial state and the clock advances between the two
internal timestamp reads (creation at instant 0, save-stamp at instant
1), the second load returns the persisted copy, whose `updatedAt`
differs from the state the first load returned: the two loads are not
structurally equal. -/
theorem c8_counterexample :
    (loadState none "r1" 42 0 1).1 =
      Except.ok (createInitialState none 0 "r1" 42) ∧
    (loadState ((loadState none "r1" 42 0 1).2) "r2" 43 5 6).1 =
      Except.ok { createInitialState none 0 "r1" 42 with updatedAt := 1 } ∧
    (createInitialState none 0 "r1" 42 : ProjectState) ≠
      { createInitialState none 0 "r1" 42 with updatedAt := 1 } :=
  ⟨rfl, rfl, by decide⟩

/-- **C8 (amended).** Two loads of the same location with no
intervening save are structurally equal whenever a valid state file
already exists; in the fresh-initialization case the two results agree
on every field except possibly `updatedAt` — the first load returns the
in-memory initial state carrying the creation timestamp while the file
(and hence the second load) carries the save timestamp — and they are
structurally equal exactly when those two clock reads coincide. -/
theorem c8_load_idempotence (s : ProjectState) (runId1 runId2 : String)
    (seed1 seed2 : Int) (t1 t2 t3 t4 : Nat) :
    (projectStateValid s = true →
      (loadState (some s) runId1 seed1 t1 t2).1 = Except.ok s ∧
      (loadState (some s) runId2 seed2 t3 t4).1 = Except.ok s) ∧
    (runId1 ≠ "" →
      (loadState none runId1 seed1 t1 t2).1 =
        Except.ok (createInitialState none t1 runId1 seed1) ∧
      (loadState ((loadState none runId1 seed1 t1 t2).2) runId2 seed2 t3 t4).1 =
        Except.ok { createInitialState none t1 runId1 seed1 with updatedAt := t2 } ∧
      ((createInitialState none t1 runId1 seed1 : ProjectState) =
          { createInitialState none t1 runId1 seed1 with updatedAt := t2 } ↔
        t1 = t2)) := by
  constructor
  · intro hv
    constructor
    · simp [loadState, hv]
    · simp [loadState, hv]
  · intro hr
    have hvi := createInitialState_valid t1 runId1 seed1 hr
    have hload1 : loadState none runId1 seed1 t1 t2 =
        (Except.ok (createInitialState none t1 runId1 seed1),
          some { createInitialState none t1 runId1 seed1 with updatedAt := t2 }) := by
      unfold loadState saveState
      simp [hvi]
    have hv2 : projectStateValid
        { createInitialState none t1 runId1 seed1 with updatedAt := t2 } = true := by
      rw [projectStateValid_updatedAt]
      exact hvi
    refine ⟨?_, ?_, ?_⟩
    · rw [hload1]
    · rw [hload1]
      simp [loadState, hv2]
    · constructor
      · intro heq
        exact congrArg ProjectState.updatedAt heq
      · intro h12
        subst h12
        rfl

/-- Witness for C8's amended theorem at concrete inputs: with an
existing valid file, the two loads both return the stored state, and in
the fresh case with coinciding clock reads the two loads agree. -/
theorem c8_witness :
    ((loadState (some cState0) "x" 1 2 3).1 = Except.ok cState0 ∧
      (loadState (some cState0) "y" 4 5 6).1 = Except.ok cState0) ∧
    ((createInitialState none 9 "rw" 7 : ProjectState) =
        { createInitialState none 9 "rw" 7 with updatedAt := 9 } ↔
      (9 : Nat) = 9) :=
  ⟨(c8_load_idempotence cState0 "x" "y" 1 4 2 3 5 6).1 (by decide),
    ((c8_load_idempotence cState0 "rw" "z" 7 8 9 9 10 11).2 (by decide)).2.2⟩

/-! ## C7: continuity chaining -/

theorem pathJoin3_ne_empty (a b c : String) : pathJoin3 a b c ≠ "" := by
  intro h
  have hlen := congrArg String.length h
  simp only [pathJoin3, String.length_append] at hlen
  have h1 : String.length "/" = 1 := rfl
  have h0 : String.length "" = 0 := rfl
  rw [h1, h0] at hlen
  omega

/-- The seed image chosen by `generateSceneVideo` when image-to-video
is enabled and the referenced files exist: the previous scene's
continuity frame when present, the scene's own concept image
otherwise. -/
theorem generateSceneVideo_chosen (env : VideoGenEnv)
    (input : VideoGeneratorInput)
    (hfs : ∀ p, env.fsExists p = true)
    (huse : input.config.useImageToVideo = some true)
    (hconcept : input.scene.conceptImagePath ≠ some "")
    (hprev : ∀ q, input.previousFramePath = some q → q ≠ "") :
    (generateSceneVideo env input).2 =
      (match input.previousFramePath with
       | some q => some q
       | none => input.scene.conceptImagePath) := by
  unfold generateSceneVideo
  dsimp only []
  cases hp : input.previousFramePath with
  | some q =>
      have hq : (q != "") = true := bne_iff_ne.mpr (hprev q hp)
      simp [optStrTruthy, hp, hq, hfs]
  | none =>
      simp only [hp]
      cases hc : input.scene.conceptImagePath with
      | none => simp [optStrTruthy, huse, hc]
      | some c =>
          have hcne : c ≠ "" := by
            intro hcc
            exact hconcept (by rw [hc, hcc])
          have hq : (c != "") = true := bne_iff_ne.mpr hcne
          simp [optStrTruthy, huse, hc, hq, hfs]

/-- Whatever continuity frame `generateSceneVideo` reports is a
non-empty path. -/
theorem generateSceneVideo_frame (env : VideoGenEnv)
    (input : VideoGeneratorInput) :
    ∀ q, (generateSceneVideo env input).1.continuityFramePath = some q →
      q ≠ "" := by
  intro q hq
  unfold generateSceneVideo at hq
  dsimp only [] at hq
  repeat' split at hq
  all_goals
    first
      | (rw [Option.some.injEq] at hq
         subst hq
         exact pathJoin3_ne_empty _ _ _)
      | exact Option.noConfusion hq

theorem generateVideosLoop_chosen (env : VideoGenEnv) (trend : Trend)
    (gc : ContinuityConstraints) (config : VideoGeneratorConfig)
    (hfs : ∀ p, env.fsExists p = true)
    (huse : config.useImageToVideo = some true) :
    ∀ (scenes : List Scene) (prev : Option String),
      (∀ s ∈ scenes, s.conceptImagePath ≠ some "") →
      (∀ q, prev = some q → q ≠ "") →
      (∀ (a : VideoGeneratorDelta × Option String) (s : Scene),
        (generateVideosLoop env trend gc config scenes prev).get? 0 = some a →
        scenes.get? 0 = some s →
        a.2 = (match prev with
               | some q => some q
               | none => s.conceptImagePath)) ∧
      (∀ (i : Nat) (a b : VideoGeneratorDelta × Option String) (s : Scene),
        (generateVideosLoop env trend gc config scenes prev).get? i = some a →
        (generateVideosLoop env trend gc config scenes prev).get? (i+1) = some b →
        scenes.get? (i+1) = some s →
        b.2 = (match a.1.continuityFramePath with
               | some q => some q
               | none => s.conceptImagePath)) := by
  intro scenes
  induction scenes with
  | nil =>
      intro prev hc hp
      constructor
      · intro a s ha hs
        simp [generateVideosLoop] at ha
      · intro i a b s ha hb hs
        simp [generateVideosLoop] at ha
  | cons x t ih =>
      intro prev hc hp
      have hcx : x.conceptImagePath ≠ some "" := hc x (by simp)
      have hct : ∀ s ∈ t, s.conceptImagePath ≠ some "" := by
        intro s hs
        exact hc s (by simp [hs])
      have hloopEq : generateVideosLoop env trend gc config (x :: t) prev =
          generateSceneVideo env
            { trend := trend, scene := x, globalContinuity := gc,
              config := config, previousFramePath := prev } ::
            generateVideosLoop env trend gc config t
              (generateSceneVideo env
                { trend := trend, scene := x, globalContinuity := gc,
                  config := config, previousFramePath := prev }).1.continuityFramePath :=
        rfl
      have hr := generateSceneVideo_chosen env
        { trend := trend, scene := x, globalContinuity := gc,
          config := config, previousFramePath := prev } hfs huse hcx hp
      have hprev2 : ∀ q,
          (generateSceneVideo env
            { trend := trend, scene := x, globalContinuity := gc,
              config := config, previousFramePath := prev }).1.continuityFramePath =
            some q → q ≠ "" :=
        generateSceneVideo_frame env _
      constructor
      · intro a s ha hs
        rw [hloopEq, List.get?_cons_zero, Option.some.injEq] at ha
        subst ha
        rw [List.get?_cons_zero, Option.some.injEq] at hs
        subst hs
        exact hr
      · intro i a b s ha hb hs
        rw [hloopEq] at ha hb
        cases i with
        | zero =>
            rw [List.get?_cons_zero, Option.some.injEq] at ha
            subst ha
            rw [List.get?_cons_succ] at hb
            rw [List.get?_cons_succ] at hs
            exact (ih _ hct hprev2).1 b s hb hs
        | succ n =>
            rw [List.get?_cons_succ] at ha hb hs
            exact (ih _ hct hprev2).2 n a b s ha hb hs

/-- **C7.** In the VISUALIZED → VIDEO_GENERATED stage (image-to-video
enabled, referenced image files present on the modeled filesystem), the
seed image passed to scene N's video generation equals scene N−1's
continuity-frame path whenever that path is non-null, and otherwise
falls back to scene N's own concept-image path; for scene 1, which has
no predecessor, the concept image is used when available. -/
theorem c7_continuity_chaining (env : VideoGenEnv) (trend : Trend)
    (gc : ContinuityConstraints) (config : VideoGeneratorConfig)
    (scenes : List Scene)
    (hfs : ∀ p, env.fsExists p = true)
    (huse : config.useImageToVideo = some true)
    (hconcept : ∀ s ∈ scenes, s.conceptImagePath ≠ some "") :
    (∀ (a : VideoGeneratorDelta × Option String) (s : Scene),
      (generateAllSceneVideos env trend scenes gc config).get? 0 = some a →
      scenes.get? 0 = some s →
      a.2 = s.conceptImagePath) ∧
    (∀ (i : Nat) (a b : VideoGeneratorDelta × Option String) (s : Scene),
      (generateAllSceneVideos env trend scenes gc config).get? i = some a →
      (generateAllSceneVideos env trend scenes gc config).get? (i+1) = some b →
      scenes.get? (i+1) = some s →
      b.2 = (match a.1.continuityFramePath with
             | some q => some q
             | none => s.conceptImagePath)) := by
  have h := generateVideosLoop_chosen env trend gc config hfs huse scenes none
    hconcept (fun q hq => by cases hq)
  exact ⟨fun a s ha hs => h.1 a s ha hs, h.2⟩

def c7Env : VideoGenEnv :=
  { fsExists := fun _ => true
    generateVideo := fun r => r.outputPath
    extractLastFrameOk := fun _ _ => true }

def c7Config : VideoGeneratorConfig :=
  { outputDir := "out", seed := 1, clipDuration := none,
    useImageToVideo := some true }

def c7SceneA : Scene :=
  { cScene 0 2 with conceptImagePath := some "a.png", visualPrompt := some "vA" }

def c7SceneB : Scene :=
  { cScene 1 4 with conceptImagePath := some "b.png", visualPrompt := some "vB" }

def c7r0 : VideoGeneratorDelta × Option String :=
  ({ sceneId := "scene_01", videoClipPath := "out/scenes/scene_01_clip.mp4",
     continuityFramePath := some "out/scenes/scene_01_continuity_frame.png" },
    some "a.png")

def c7r1 : VideoGeneratorDelta × Option String :=
  ({ sceneId := "scene_02", videoClipPath := "out/scenes/scene_02_clip.mp4",
     continuityFramePath := some "out/scenes/scene_02_continuity_frame.png" },
    some "out/scenes/scene_01_continuity_frame.png")

/-- Witness for C7 at a concrete input: with two scenes, scene 2's seed
image is exactly scene 1's extracted continuity frame. -/
theorem c7_witness :
    c7r1.2 = some "out/scenes/scene_01_continuity_frame.png" :=
  (c7_continuity_chaining c7Env cTrend cGC c7Config [c7SceneA, c7SceneB]
    (fun _ => rfl) rfl (by decide)).2 0 c7r0 c7r1 c7SceneB rfl rfl rfl

end TrendsFactory
